import Mathlib

/-!
Shallow embedding of the genshin-checkin-bot automation core, verified against
its natural-language specification.  The definitions below are translated from
the Python sources: `src/detection/detector.py`, `src/detection/strategies.py`,
`src/automation/orchestrator.py`, `src/state/manager.py`, `src/utils/timing.py`.
Effectful browser operations are modelled as explicit oracles
(`String → Except String Bool` for `find_element` / `click_element`, where
`Except.error` models a raised exception), randomness as an explicit jitter
parameter, and confidence values as rationals.
-/

namespace Checkin

/-- Lexicographic code-point comparison of character lists; models Python
string comparison (used by `history.sort(key=...)`). -/
def lexLe : List Char → List Char → Bool
  | [], _ => true
  | _ :: _, [] => false
  | a :: as, b :: bs =>
    if a.toNat < b.toNat then true
    else if b.toNat < a.toNat then false
    else lexLe as bs

/-- String comparison via the underlying character lists. -/
def strLe (a b : String) : Bool := lexLe a.data b.data

/-- ASCII lower-casing of one character, as Python `str.lower` acts on the
ASCII range relevant to the error-classifier needles. -/
def lowChar (c : Char) : Char :=
  if 65 ≤ c.toNat ∧ c.toNat ≤ 90 then Char.ofNat (c.toNat + 32) else c

/-- Character data of the lower-cased string. -/
def lowerData (s : String) : List Char := s.data.map lowChar

/-- Substring occurrence test on character lists. -/
def substrAux (needle : List Char) : List Char → Bool
  | [] => needle.isEmpty
  | c :: rest => needle.isPrefixOf (c :: rest) || substrAux needle rest

/-- Models Python `needle in str(error).lower()` for a lower-case needle. -/
def msgHasLower (msg needle : String) : Bool :=
  substrAux needle.data (lowerData msg)

/-! Timing utilities (`src/utils/timing.py`, `TimingUtils.human_delay`). -/

/-- Models `TimingUtils.human_delay`: `variance_amount = base_ms * variance`,
`delay_ms = base_ms + random.uniform(-variance_amount, variance_amount)`,
`delay_ms = max(100, delay_ms)`.  The random draw is modelled by a jitter
factor `u ∈ [-1, 1]`, so the uniform sample is `u * variance_amount`. -/
def human_delay_ms (base_ms variance u : ℚ) : ℚ :=
  let variance_amount := base_ms * variance
  let delay_ms := base_ms + u * variance_amount
  max 100 delay_ms

/-! Reward-state data and the fallback merge
(`RewardDetector._merge_detection_results`). -/

/-- One reward-state entry `{selector, state, confidence}` as produced by
`analyze_reward_states` in `src/detection/strategies.py`. -/
structure RewardEntry where
  selector : String
  state : String
  confidence : ℚ
deriving DecidableEq

/-- Models the per-key merge loop of `_merge_detection_results`: each new item
is appended unless an equal item is already present. -/
def mergeRewardList (existing_items new_items : List RewardEntry) : List RewardEntry :=
  new_items.foldl (fun acc item => if item ∈ acc then acc else acc ++ [item]) existing_items

/-- Reward-state detection result `{claimable_rewards, claimed_rewards,
unavailable_rewards, detection_confidence}` as built by
`analyze_reward_states` / `_detect_reward_states_with_confidence`. -/
structure RewardStatesResult where
  claimable_rewards : List RewardEntry
  claimed_rewards : List RewardEntry
  unavailable_rewards : List RewardEntry
  detection_confidence : ℚ
deriving DecidableEq

/-- Models `RewardDetector._merge_detection_results`: merges the three reward
lists of the fallback result into the primary result; other keys untouched. -/
def merge_detection_results (primary_result fallback_result : RewardStatesResult) :
    RewardStatesResult :=
  { primary_result with
    claimable_rewards :=
      mergeRewardList primary_result.claimable_rewards fallback_result.claimable_rewards
    claimed_rewards :=
      mergeRewardList primary_result.claimed_rewards fallback_result.claimed_rewards
    unavailable_rewards :=
      mergeRewardList primary_result.unavailable_rewards fallback_result.unavailable_rewards }

/-! Claim validation (`RewardDetector._calculate_validation_confidence`). -/

/-- Arithmetic mean of a list of confidences, as `sum(...) / len(...)`. -/
def listAvg (l : List ℚ) : ℚ := l.sum / l.length

/-- Models `RewardDetector._calculate_validation_confidence`.  Each evidence
group is represented by the list of per-signal confidences of its entries
(every entry produced by the detector carries a `confidence` key).  A group
contributes the factor `average * weight` only when non-empty; the function
returns the plain average of the collected factors, `0.0` if there are none. -/
def calculate_validation_confidence
    (ui_feedback state_changes success_indicators : List ℚ) : ℚ :=
  let confidence_factors : List ℚ :=
    (if ui_feedback ≠ [] then [listAvg ui_feedback * 0.4] else []) ++
    (if state_changes ≠ [] then [listAvg state_changes * 0.4] else []) ++
    (if success_indicators ≠ [] then [listAvg success_indicators * 0.2] else [])
  if confidence_factors ≠ [] then
    confidence_factors.sum / confidence_factors.length
  else 0.0

/-! Claim engine (`RewardDetector.claim_available_rewards`,
`_claim_single_reward`, `_handle_confirmation_dialog`). -/

/-- Browser oracle for the claim engine.  `click_element` additionally takes
the number of click invocations issued so far, so that every call site can
behave differently; `Except.error` models a raised exception. -/
structure ClaimBrowser where
  find_element : String → Except String Bool
  click_element : String → Nat → Except String Bool

/-- Confirmation-dialog selector list of `_handle_confirmation_dialog`. -/
def confirmation_selectors : List String :=
  [".confirm-btn", ".ok-btn", ".accept-btn", "[data-testid=\x27confirm\x27]",
   ".modal-confirm", "button:contains(\x27确认\x27)", "button:contains(\x27OK\x27)",
   "button:contains(\x27Confirm\x27)"]

/-- Result of `_handle_confirmation_dialog`. -/
structure ConfirmationResult where
  confirmed : Bool
  dialog_found : Bool
  error : Option String
deriving DecidableEq

/-- The selector probe loop of `_handle_confirmation_dialog`: returns
`(confirmed, dialog_found, clicks)` where `clicks` counts `click_element`
invocations.  A raised `find_element` is caught and skipped; a found dialog
sets `dialog_found` before the confirmation click is attempted; a failed or
raising confirmation click continues with the next selector. -/
def confirmProbe (b : ClaimBrowser) : List String → Bool → Nat → Bool × Bool × Nat
  | [], dialog_found, clicks => (false, dialog_found, clicks)
  | s :: rest, dialog_found, clicks =>
    match b.find_element s with
    | Except.ok true =>
      match b.click_element s clicks with
      | Except.ok true => (true, true, clicks + 1)
      | Except.ok false => confirmProbe b rest true (clicks + 1)
      | Except.error _ => confirmProbe b rest true (clicks + 1)
    | _ => confirmProbe b rest dialog_found clicks

/-- Models `_handle_confirmation_dialog`: probes the selectors and, if no
dialog was found, assumes confirmation is not required. -/
def handle_confirmation_dialog (b : ClaimBrowser) (clicks : Nat) :
    ConfirmationResult × Nat :=
  let r := confirmProbe b confirmation_selectors false clicks
  if r.2.1 then
    ({ confirmed := r.1, dialog_found := true, error := none }, r.2.2)
  else
    ({ confirmed := true, dialog_found := false, error := none }, r.2.2)

/-- Result of `_claim_single_reward`. -/
structure SingleClaimResult where
  success : Bool
  clicked : Bool
  confirmed : Bool
  retry_attempts : Nat
  error : Option String
deriving DecidableEq

/-- Maximum click retries of `_claim_single_reward`. -/
def max_retries : Nat := 3

/-- The click-retry loop of `_claim_single_reward`.  Returns `(clicked,
retry_attempts, early_error, clicks)`: `early_error` is set exactly when the
last attempt raised (the code then returns immediately); a click raising on an
earlier attempt, or returning `False`, moves on to the next attempt. -/
def clickRetryAux (b : ClaimBrowser) (selector : String) :
    Nat → Nat → Nat → Bool × Nat × Option String × Nat
  | 0, _, clicks => (false, max_retries, none, clicks)
  | fuel + 1, attempt, clicks =>
    match b.click_element selector clicks with
    | Except.ok true => (true, attempt + 1, none, clicks + 1)
    | Except.ok false => clickRetryAux b selector fuel (attempt + 1) (clicks + 1)
    | Except.error e =>
      if attempt + 1 = max_retries then
        (false, attempt + 1,
         some ("Failed to click reward after 3 attempts: " ++ e), clicks + 1)
      else clickRetryAux b selector fuel (attempt + 1) (clicks + 1)

/-- Models `_claim_single_reward` for a reward entry, threading the click
counter.  An empty selector models a falsy `reward.get("selector")`. -/
def claim_single_reward (b : ClaimBrowser) (reward : RewardEntry) (clicks : Nat) :
    SingleClaimResult × Nat :=
  if reward.selector = "" then
    ({ success := false, clicked := false, confirmed := false, retry_attempts := 0,
       error := some "No selector provided for reward" }, clicks)
  else
    let r := clickRetryAux b reward.selector max_retries 0 clicks
    let clicked := r.1
    let retry_attempts := r.2.1
    match r.2.2.1 with
    | some e =>
      ({ success := false, clicked := false, confirmed := false, retry_attempts,
         error := some e }, r.2.2.2)
    | none =>
      if clicked then
        let c := handle_confirmation_dialog b r.2.2.2
        ({ success := clicked && (c.1.confirmed || true), clicked,
           confirmed := c.1.confirmed, retry_attempts, error := c.1.error }, c.2)
      else
        ({ success := clicked && (false || true), clicked, confirmed := false,
           retry_attempts, error := none }, r.2.2.2)

/-- Result of `claim_available_rewards`. -/
structure ClaimingResult where
  success : Bool
  claims_processed : Nat
  successful_claims : List RewardEntry
  failed_claims : List RewardEntry
  total_attempts : Nat
  error_details : List String
deriving DecidableEq

/-- The per-reward loop of `claim_available_rewards`, collecting successful
and failed claims without aborting the batch. -/
def claimRewardsLoop (b : ClaimBrowser) :
    List RewardEntry → ClaimingResult → Nat → ClaimingResult × Nat
  | [], acc, clicks => (acc, clicks)
  | reward :: rest, acc, clicks =>
    let r := claim_single_reward b reward clicks
    let acc :=
      if r.1.success then
        { acc with
          successful_claims := acc.successful_claims ++ [reward]
          claims_processed := acc.claims_processed + 1 }
      else
        { acc with failed_claims := acc.failed_claims ++ [reward] }
    claimRewardsLoop b rest acc r.2

/-- Models `RewardDetector.claim_available_rewards` given a previously
computed detection result.  Returns the claiming result together with the
number of `click_element` invocations issued. -/
def claim_available_rewards (b : ClaimBrowser) (detection_result : RewardStatesResult) :
    ClaimingResult × Nat :=
  let claiming_result : ClaimingResult :=
    { success := false, claims_processed := 0, successful_claims := [],
      failed_claims := [], total_attempts := 0, error_details := [] }
  let claimable_rewards := detection_result.claimable_rewards
  if claimable_rewards = [] then
    ({ claiming_result with success := true }, 0)
  else
    let claiming_result := { claiming_result with total_attempts := claimable_rewards.length }
    let r := claimRewardsLoop b claimable_rewards claiming_result 0
    ({ r.1 with success := decide (0 < r.1.claims_processed) }, r.2)

/-! Selector strategies (`src/detection/strategies.py`). -/

/-- Browser `find_element` oracle for detection; `Except.error` models a
raised exception. -/
def Find := String → Except String Bool

/-- Entry of a strategy's `found_elements` list: the class-based strategy
appends `{target_type, selector}` pairs, the other strategies append plain
target-type strings. -/
inductive FoundElement
  | typed (target_type selector : String)
  | plain (target_type : String)
deriving DecidableEq

/-- One entry of a strategy's `selectors` list.  `found` and `confidence` are
only set by the class-based strategy, `text_pattern` only by the text-content
strategy. -/
structure SelectorInfo where
  selector : String
  target_type : String
  priority : String
  found : Option Bool := none
  confidence : Option ℚ := none
  text_pattern : Option String := none
deriving DecidableEq

/-- Result of a strategy's `detect_elements`. -/
structure StrategyResult where
  selectors : List SelectorInfo
  found_elements : List FoundElement
  confidence : ℚ
  strategy_name : String
deriving DecidableEq

/-- Selector table of `HoYoLABClassBasedStrategy`, in insertion order. -/
def hoyolab_selectors : List (String × List String) :=
  [("signin_button", [".signin-btn", ".check-in-btn", ".daily-signin", "#signin-button"]),
   ("reward_container", [".reward-item", ".rewards-list", ".daily-rewards"]),
   ("claim_button", [".claim-btn", ".receive-btn", ".get-reward"])]

/-- The nested selector loop of `HoYoLABClassBasedStrategy.detect_elements`:
a raising `find_element` is caught and the selector skipped; otherwise the
selector info is recorded and found selectors are collected. -/
def classBasedDetectAux (find : Find) (table : List (String × List String)) :
    List SelectorInfo × List FoundElement × Bool :=
  table.foldl
    (fun acc tt =>
      tt.2.foldl
        (fun acc s =>
          match find s with
          | Except.error _ => acc
          | Except.ok fnd =>
            let info : SelectorInfo :=
              { selector := s, target_type := tt.1, priority := "high",
                found := some fnd, confidence := some (if fnd then 0.9 else 0.1) }
            if fnd then
              (acc.1 ++ [info], acc.2.1 ++ [FoundElement.typed tt.1 s], true)
            else
              (acc.1 ++ [info], acc.2.1, acc.2.2))
        acc)
    ([], [], false)

/-- Models `HoYoLABClassBasedStrategy.detect_elements`. -/
def hoyolab_class_based_detect (find : Find) : StrategyResult :=
  let r := classBasedDetectAux find hoyolab_selectors
  { selectors := r.1, found_elements := r.2.1,
    confidence := if r.2.2 then 0.8 else 0.2,
    strategy_name := "hoyolab_class_based" }

/-- Selector table of `AttributeBasedStrategy`. -/
def attribute_selectors : List (String × List String) :=
  [("signin_button",
    ["[data-testid=\x27signin-button\x27]", "[aria-label*=\x27sign in\x27]",
     "[data-action=\x27signin\x27]", "[role=\x27button\x27][aria-label*=\x27check\x27]"]),
   ("reward_container",
    ["[data-testid=\x27reward-item\x27]", "[aria-label*=\x27reward\x27]",
     "[data-component=\x27reward\x27]"])]

/-- Models `AttributeBasedStrategy.detect_elements`: records its selector
table and simulates a found `signin_button` (no browser interaction). -/
def attribute_based_detect : StrategyResult :=
  { selectors :=
      (attribute_selectors.map (fun tt =>
        tt.2.map (fun s =>
          ({ selector := s, target_type := tt.1, priority := "medium" } : SelectorInfo)))).flatten
    found_elements := [FoundElement.plain "signin_button"]
    confidence := 0.7
    strategy_name := "attribute_based" }

/-- Text-pattern table of `TextContentStrategy`. -/
def text_patterns : List (String × List String) :=
  [("signin_button", ["Sign in", "Check in", "Daily check-in", "领取", "簽到"]),
   ("reward_item", ["Primogem", "Mora", "Enhancement Ore", "reward", "奖励"])]

/-- Models `TextContentStrategy.detect_elements`: generates four contains
selectors per pattern and simulates a found `signin_button`. -/
def text_content_detect : StrategyResult :=
  { selectors :=
      (text_patterns.map (fun tt =>
        (tt.2.map (fun p =>
          ["button:contains(\x27" ++ p ++ "\x27)", "a:contains(\x27" ++ p ++ "\x27)",
           "div:contains(\x27" ++ p ++ "\x27)", "span:contains(\x27" ++ p ++ "\x27)"].map
            (fun s =>
              ({ selector := s, target_type := tt.1, priority := "low",
                 text_pattern := some p } : SelectorInfo)))).flatten)).flatten
    found_elements := [FoundElement.plain "signin_button"]
    confidence := 0.6
    strategy_name := "text_content" }

/-- Selector list of `GenericFallbackStrategy`. -/
def generic_selectors : List String :=
  ["button[type=\x27submit\x27]", "input[type=\x27submit\x27]", ".btn-primary",
   ".btn-success", ".button", "a.btn", "[role=\x27button\x27]"]

/-- Models `GenericFallbackStrategy.detect_elements`. -/
def generic_fallback_detect : StrategyResult :=
  { selectors :=
      generic_selectors.map (fun s =>
        ({ selector := s, target_type := "generic_button", priority := "fallback" } : SelectorInfo))
    found_elements := [FoundElement.plain "generic_button"]
    confidence := 0.3
    strategy_name := "generic_fallback" }

/-- Claimable-state selector family of
`HoYoLABClassBasedStrategy.analyze_reward_states`. -/
def claimable_selectors : List String :=
  [".reward-item:not(.claimed):not(.disabled)", ".daily-reward.available",
   ".signin-reward.claimable", "[data-state=\x27available\x27]"]

/-- Claimed-state selector family. -/
def claimed_selectors : List String :=
  [".reward-item.claimed", ".daily-reward.completed", ".signin-reward.received",
   "[data-state=\x27claimed\x27]"]

/-- Unavailable-state selector family. -/
def unavailable_selectors : List String :=
  [".reward-item.disabled", ".daily-reward.locked", ".signin-reward.unavailable",
   "[data-state=\x27locked\x27]"]

/-- One state-family probe loop of `analyze_reward_states`: found selectors
produce `{selector, state, confidence}` entries; raising or unsuccessful
probes are skipped. -/
def statesProbe (find : Find) (state : String) (conf : ℚ) (sels : List String) :
    List RewardEntry :=
  sels.foldl
    (fun acc s =>
      match find s with
      | Except.ok true => acc ++ [{ selector := s, state := state, confidence := conf }]
      | _ => acc)
    []

/-- Models `HoYoLABClassBasedStrategy.analyze_reward_states`. -/
def hoyolab_analyze_reward_states (find : Find) : RewardStatesResult :=
  { claimable_rewards := statesProbe find "claimable" 0.9 claimable_selectors
    claimed_rewards := statesProbe find "claimed" 0.9 claimed_selectors
    unavailable_rewards := statesProbe find "unavailable" 0.8 unavailable_selectors
    detection_confidence := 0.8 }

/-- Models `SelectorStrategy.analyze_reward_states`, the base-class default
used by the attribute, text and generic strategies. -/
def base_analyze_reward_states : RewardStatesResult :=
  { claimable_rewards := [], claimed_rewards := [], unavailable_rewards := [],
    detection_confidence := 0.5 }

/-- Models `SelectorStrategyFactory.get_strategy_by_name` followed by
`analyze_reward_states`: `none` when no registered strategy has the name. -/
def lookupStrategyStates (name : String) (find : Find) : Option RewardStatesResult :=
  if name = "hoyolab_class_based" then some (hoyolab_analyze_reward_states find)
  else if name = "attribute_based" ∨ name = "text_content" ∨ name = "generic_fallback" then
    some base_analyze_reward_states
  else none

/-! Detection engine (`RewardDetector.analyze_interface` and the
reward-availability layer). -/

/-- Outcome of running one strategy's `detect_elements`: the strategy name
paired with either its result or a raised exception. -/
def StrategyOutcome := String × Except String StrategyResult

/-- Entry of the `successful_strategies` list in `analyze_interface`. -/
structure SuccessfulStrategy where
  strategy : String
  selectors : List SelectorInfo
  element_count : Nat
  confidence : ℚ
deriving DecidableEq

/-- The strategy loop of `analyze_interface`: per-strategy exceptions are
caught and skipped; strategies with non-empty `found_elements` are kept and
their selectors accumulated. -/
def collectSuccessful : List StrategyOutcome → List SuccessfulStrategy × List SelectorInfo
  | [] => ([], [])
  | (_, Except.error _) :: rest => collectSuccessful rest
  | (name, Except.ok r) :: rest =>
    let acc := collectSuccessful rest
    if r.found_elements ≠ [] then
      ({ strategy := name, selectors := r.selectors,
         element_count := r.found_elements.length, confidence := r.confidence } :: acc.1,
       r.selectors ++ acc.2)
    else acc

/-- Ordering used by `successful_strategies.sort(key=lambda x: (x["confidence"],
x["element_count"]), reverse=True)`: `a` may stay before `b` iff its key is
greater or equal lexicographically. -/
def stratDescLe (a b : SuccessfulStrategy) : Prop :=
  b.confidence < a.confidence ∨
    (b.confidence = a.confidence ∧ b.element_count ≤ a.element_count)

instance : DecidableRel stratDescLe := fun a b => by
  unfold stratDescLe; infer_instance

/-- Stable descending sort of the successful strategies. -/
def sortSuccessful (l : List SuccessfulStrategy) : List SuccessfulStrategy :=
  List.insertionSort stratDescLe l

/-- Reward states attached to an analysis result by
`RewardDetector._analyze_reward_states`. -/
structure RewardStatesWithMethod where
  claimable_rewards : List RewardEntry
  claimed_rewards : List RewardEntry
  unavailable_rewards : List RewardEntry
  total_found : Nat
  analysis_method : String
deriving DecidableEq

/-- Result of `analyze_interface`. -/
structure AnalysisResult where
  selectors : List SelectorInfo
  reward_states : Option RewardStatesWithMethod
  detection_confidence : ℚ
  primary_strategy : Option String
  fallback_strategies : List String
deriving DecidableEq

/-- Models `RewardDetector._analyze_reward_states` for a chosen strategy:
looks the strategy up, runs its state classifier (internal failures already
caught inside the classifiers), and totals the entries. -/
def analyze_reward_states_for (find : Find) (strategy_name : String) :
    RewardStatesWithMethod :=
  let st := (lookupStrategyStates strategy_name find).getD base_analyze_reward_states
  { claimable_rewards := st.claimable_rewards
    claimed_rewards := st.claimed_rewards
    unavailable_rewards := st.unavailable_rewards
    total_found := st.claimable_rewards.length + st.claimed_rewards.length +
      st.unavailable_rewards.length
    analysis_method := strategy_name }

/-- Models `RewardDetector.analyze_interface`, generic in the per-strategy
outcomes and in the state analyzer invoked for the chosen primary strategy.
Per-strategy exceptions are caught inside the loop, so the surrounding
`try`/`except` that would re-raise a `DetectionError` has nothing left to
catch: every branch returns `Except.ok`. -/
def analyze_interface (analyzeStates : String → RewardStatesWithMethod)
    (outcomes : List StrategyOutcome) : Except String AnalysisResult :=
  let acc := collectSuccessful outcomes
  match sortSuccessful acc.1 with
  | [] =>
    Except.ok
      { selectors := acc.2, reward_states := none, detection_confidence := 0.0,
        primary_strategy := none, fallback_strategies := [] }
  | top :: rest =>
    Except.ok
      { selectors := acc.2
        reward_states := some (analyzeStates top.strategy)
        detection_confidence := top.confidence
        primary_strategy := some top.strategy
        fallback_strategies := rest.map (fun s => s.strategy) }

/-- Models `RewardDetector._calculate_confidence_score`: a reward-count bonus
capped at `0.3` on top of the base confidence, the total capped at `1.0`. -/
def calculate_confidence_score (state_result : RewardStatesResult) : ℚ :=
  let base_confidence := state_result.detection_confidence
  let total_rewards : Nat := state_result.claimable_rewards.length +
    state_result.claimed_rewards.length + state_result.unavailable_rewards.length
  let base_confidence :=
    if 0 < total_rewards then
      base_confidence + min 0.3 ((total_rewards : ℚ) * 0.1)
    else base_confidence
  min 1.0 base_confidence

/-- Models `RewardDetector._apply_fallback_detection`: runs the classifiers
of at most two fallback strategies and merges their reward lists into the
current result; lookup failures are skipped. -/
def apply_fallback_detection (find : Find) (state_result : RewardStatesResult)
    (fallback_strategies : List String) : RewardStatesResult :=
  (fallback_strategies.take 2).foldl
    (fun acc name =>
      match lookupStrategyStates name find with
      | some fallback_states => merge_detection_results acc fallback_states
      | none => acc)
    state_result

/-- The initial `state_result` of `_detect_reward_states_with_confidence`. -/
def emptyStateResult : RewardStatesResult :=
  { claimable_rewards := [], claimed_rewards := [], unavailable_rewards := [],
    detection_confidence := 0.0 }

/-- The primary-strategy phase of `_detect_reward_states_with_confidence`:
runs the primary strategy's classifier when one was chosen and found, and
overwrites `detection_confidence` with the interface-analysis confidence. -/
def primary_state_result (find : Find) (interface_analysis : AnalysisResult) :
    RewardStatesResult :=
  match interface_analysis.primary_strategy with
  | some name =>
    match lookupStrategyStates name find with
    | some primary_states =>
      { primary_states with detection_confidence := interface_analysis.detection_confidence }
    | none => emptyStateResult
  | none => emptyStateResult

/-- The fallback phase of `_detect_reward_states_with_confidence`: below the
`0.6` confidence threshold, merge in up to two fallback classifiers. -/
def fallback_state_result (find : Find) (interface_analysis : AnalysisResult) :
    RewardStatesResult :=
  let state_result := primary_state_result find interface_analysis
  if state_result.detection_confidence < 0.6 then
    apply_fallback_detection find state_result interface_analysis.fallback_strategies
  else state_result

/-- Models `RewardDetector._detect_reward_states_with_confidence`: primary
phase, fallback phase, then confidence recomputation. -/
def detect_reward_states_with_confidence (find : Find) (interface_analysis : AnalysisResult) :
    RewardStatesResult :=
  let state_result := fallback_state_result find interface_analysis
  { state_result with detection_confidence := calculate_confidence_score state_result }

/-- Visual state-indicator selectors of `_analyze_state_indicators`. -/
def visual_state_selectors : List String :=
  [".claimed", ".disabled", ".unavailable", ".available", ".claimable", ".ready",
   "[disabled]", ".btn-success", ".btn-primary"]

/-- Models `RewardDetector._analyze_state_indicators`: the found visual
indicators and the capped validation score. -/
def analyze_state_indicators (find : Find) : List String × ℚ :=
  let fnd := visual_state_selectors.foldl
    (fun acc s => match find s with | Except.ok true => acc ++ [s] | _ => acc) []
  (fnd, min 1.0 ((fnd.length : ℚ) * 0.2))

/-- The repository's registered strategies in priority order, applied to the
browser oracle; none of the four `detect_elements` implementations can leak
an exception (each catches browser failures internally). -/
def run_strategies (find : Find) : List StrategyOutcome :=
  [("hoyolab_class_based", Except.ok (hoyolab_class_based_detect find)),
   ("attribute_based", Except.ok attribute_based_detect),
   ("text_content", Except.ok text_content_detect),
   ("generic_fallback", Except.ok generic_fallback_detect)]

/-- Result of `detect_reward_availability`. -/
structure DetectionResult where
  claimable_rewards : List RewardEntry
  claimed_rewards : List RewardEntry
  unavailable_rewards : List RewardEntry
  total_rewards_found : Nat
  detection_confidence : ℚ
  strategies_used : Option String
  fallback_strategies : List String
  visual_indicators_found : List String
  state_validation_score : ℚ
deriving DecidableEq

/-- Models `RewardDetector.detect_reward_availability`: interface analysis,
the `< 0.3` low-confidence gate, state differentiation and confidence
recomputation.  A failure of the interface analysis would surface as the
`DetectionError` of the surrounding handler. -/
def detect_reward_availability (find : Find) : Except String DetectionResult :=
  match analyze_interface (analyze_reward_states_for find) (run_strategies find) with
  | Except.error e => Except.error ("Reward availability detection failed: " ++ e)
  | Except.ok interface_analysis =>
    if interface_analysis.detection_confidence < 0.3 then
      Except.ok
        { claimable_rewards := [], claimed_rewards := [], unavailable_rewards := [],
          total_rewards_found := 0,
          detection_confidence := interface_analysis.detection_confidence,
          strategies_used := interface_analysis.primary_strategy,
          fallback_strategies := interface_analysis.fallback_strategies,
          visual_indicators_found := [], state_validation_score := 0.0 }
    else
      let states := detect_reward_states_with_confidence find interface_analysis
      let indicators := analyze_state_indicators find
      Except.ok
        { claimable_rewards := states.claimable_rewards
          claimed_rewards := states.claimed_rewards
          unavailable_rewards := states.unavailable_rewards
          total_rewards_found := states.claimable_rewards.length +
            states.claimed_rewards.length + states.unavailable_rewards.length
          detection_confidence := states.detection_confidence
          strategies_used := interface_analysis.primary_strategy
          fallback_strategies := interface_analysis.fallback_strategies
          visual_indicators_found := indicators.1
          state_validation_score := indicators.2 }

/-- Detection confidence of a detection outcome (`0` for the never-taken
error branch). -/
def detectionConfidenceOf (x : Except String DetectionResult) : ℚ :=
  match x with
  | Except.ok r => r.detection_confidence
  | Except.error _ => 0

/-! Error classifier and recovery policy
(`RewardDetector.handle_claiming_errors` and its per-kind handlers). -/

/-- Python exception class of the handled error, as far as the classifier
distinguishes them (`isinstance` checks); `otherError` stands for any other
exception class. -/
inductive PyErrorKind
  | networkTimeoutError
  | timeoutError
  | elementNotFoundError
  | authenticationError
  | uiChangeError
  | otherError
deriving DecidableEq

/-- A raised exception: its class, its class name (`type(error).__name__`)
and its message (`str(error)`). -/
structure PyError where
  kind : PyErrorKind
  type_name : String
  message : String
deriving DecidableEq

/-- Environment of browser-dependent effects the recovery handlers perform:
whether the cooldown sleep itself raises, the `get_current_url` outcome, the
`_try_fallback_selectors` outcome, the login-page probe outcome and the
re-analysis outcome of the UI-change handler. -/
structure RecoveryEnv where
  sleepRaises : Bool
  current_url : Except String (Option String)
  fallbackSelectorsFound : Bool
  loginPageDetected : Bool
  reanalysis : Except String ℚ

/-- Models `RewardDetector._test_browser_connection`: true iff
`get_current_url` returns a non-`None` value; a raised exception is caught
and yields false. -/
def test_browser_connection (env : RecoveryEnv) : Bool :=
  match env.current_url with
  | Except.ok (some _) => true
  | Except.ok none => false
  | Except.error _ => false

/-- Recovery fields `(recovery_attempted, recovery_success,
retry_recommended, fallback_available)` that a handler merges into the base
handling result. -/
structure RecoveryFields where
  recovery_attempted : Bool
  recovery_success : Bool
  retry_recommended : Bool
  fallback_available : Bool
deriving DecidableEq

/-- Models `RewardDetector._handle_network_timeout`: `retry_recommended` is
set `True` up front and never cleared — neither by a failed liveness re-test
nor by the handler's own `except` path. -/
def handle_network_timeout (env : RecoveryEnv) : RecoveryFields :=
  if env.sleepRaises then
    { recovery_attempted := true, recovery_success := false,
      retry_recommended := true, fallback_available := true }
  else if test_browser_connection env then
    { recovery_attempted := true, recovery_success := true,
      retry_recommended := true, fallback_available := true }
  else
    { recovery_attempted := true, recovery_success := false,
      retry_recommended := true, fallback_available := true }

/-- Models `RewardDetector._handle_element_not_found`. -/
def handle_element_not_found (env : RecoveryEnv) : RecoveryFields :=
  if env.fallbackSelectorsFound then
    { recovery_attempted := true, recovery_success := true,
      retry_recommended := true, fallback_available := true }
  else
    { recovery_attempted := true, recovery_success := false,
      retry_recommended := false, fallback_available := false }

/-- Models `RewardDetector._handle_authentication_failure`. -/
def handle_authentication_failure (env : RecoveryEnv) : RecoveryFields :=
  if env.loginPageDetected then
    { recovery_attempted := true, recovery_success := false,
      retry_recommended := false, fallback_available := true }
  else
    { recovery_attempted := true, recovery_success := true,
      retry_recommended := true, fallback_available := false }

/-- Models `RewardDetector._handle_ui_changes`. -/
def handle_ui_changes (env : RecoveryEnv) : RecoveryFields :=
  match env.reanalysis with
  | Except.error _ =>
    { recovery_attempted := true, recovery_success := false,
      retry_recommended := false, fallback_available := true }
  | Except.ok conf =>
    if 0.3 < conf then
      { recovery_attempted := true, recovery_success := true,
        retry_recommended := true, fallback_available := true }
    else
      { recovery_attempted := true, recovery_success := false,
        retry_recommended := false, fallback_available := false }

/-- Models `RewardDetector._handle_generic_error`. -/
def handle_generic_error (env : RecoveryEnv) : RecoveryFields :=
  if env.sleepRaises then
    { recovery_attempted := true, recovery_success := false,
      retry_recommended := true, fallback_available := true }
  else if test_browser_connection env then
    { recovery_attempted := true, recovery_success := true,
      retry_recommended := true, fallback_available := true }
  else
    { recovery_attempted := true, recovery_success := false,
      retry_recommended := true, fallback_available := true }

/-- Which recovery handler the `if`/`elif` chain of
`handle_claiming_errors` routes the error to. -/
inductive ErrorRoute
  | network
  | element
  | auth
  | ui
  | generic
deriving DecidableEq

/-- The classification chain of `handle_claiming_errors`: exception type when
available, else case-insensitive substring match on the message, in the
source order (timeout first). -/
def classify_error (e : PyError) : ErrorRoute :=
  if (e.kind = .networkTimeoutError ∨ e.kind = .timeoutError) ∨
      msgHasLower e.message "timeout" = true then .network
  else if e.kind = .elementNotFoundError ∨ msgHasLower e.message "not found" = true then
    .element
  else if e.kind = .authenticationError ∨ msgHasLower e.message "auth" = true then .auth
  else if e.kind = .uiChangeError ∨ msgHasLower e.message "ui" = true then .ui
  else .generic

/-- Uniform result of `handle_claiming_errors`. -/
structure ErrorHandlingResult where
  error_type : String
  error_message : String
  recovery_attempted : Bool
  recovery_success : Bool
  retry_recommended : Bool
  fallback_available : Bool
deriving DecidableEq

/-- Models `RewardDetector.handle_claiming_errors`: classifies the error,
runs the matching handler against the environment of browser effects, and
merges its fields into the base result.  Also returns the taken route. -/
def handle_claiming_errors (env : RecoveryEnv) (e : PyError) :
    ErrorHandlingResult × ErrorRoute :=
  let route := classify_error e
  let f :=
    match route with
    | .network => handle_network_timeout env
    | .element => handle_element_not_found env
    | .auth => handle_authentication_failure env
    | .ui => handle_ui_changes env
    | .generic => handle_generic_error env
  ({ error_type := e.type_name, error_message := e.message,
     recovery_attempted := f.recovery_attempted,
     recovery_success := f.recovery_success,
     retry_recommended := f.retry_recommended,
     fallback_available := f.fallback_available }, route)

/-! Check-in workflow state machine
(`AutomationOrchestrator.execute_checkin`). -/

/-- Stage outcomes of one `execute_checkin` run.  `navigate` and `validate`
may raise (`_navigate_to_hoyolab` propagates browser failures,
`validate_claim_success` raises `DetectionError`); `_close_blocking_modals`,
`_authenticate`, `_detect_rewards_with_red_point` and
`_claim_reward_with_red_point` catch internally and only return values. -/
structure WorkflowOps where
  navigate : Except String Unit
  authenticate : Bool
  claimable_count : Nat
  claim_success : Bool
  validate : Except String Unit
  cleanup : Except String Unit

/-- Observable outcome of `execute_checkin`: the raised aggregate error (if
any), the final `step_completed` marker, the success flags, the recorded
errors and the cleanup bookkeeping of the `finally` block. -/
structure CheckinOutcome where
  raised : Option String
  step_completed : Option String
  success : Bool
  workflow_completed : Bool
  cleanup_completed : Bool
  cleanup_calls : Nat
  errors : List String
deriving DecidableEq

/-- Rendering of `step_completed` inside the aggregate error f-string
(Python renders `None` as the string `None`). -/
def renderStep : Option String → String
  | none => "None"
  | some s => s

/-- The `except` path of `execute_checkin`: appends the error, builds the
aggregate `AutomationError` message naming the last recorded stage. -/
def workflowFail (step : Option String) (e : String) :
    Option String × Option String × Bool × Bool × List String :=
  (some ("Check-in workflow failed at " ++ renderStep step ++ ": " ++ e),
   step, false, false, [e])

/-- The `try` body of `execute_checkin`: runs the stages in order, updating
`step_completed` after each stage completes.  Returns
`(raised, step_completed, success, workflow_completed, errors)`. -/
def execute_checkin_body (ops : WorkflowOps) (dry_run : Bool) :
    Option String × Option String × Bool × Bool × List String :=
  match ops.navigate with
  | Except.error e => workflowFail none e
  | Except.ok _ =>
    if !ops.authenticate then
      workflowFail (some "authentication") "Authentication failed"
    else if !dry_run && decide (0 < ops.claimable_count) then
      if ops.claim_success then
        match ops.validate with
        | Except.error e => workflowFail (some "reward_claiming") e
        | Except.ok _ => (none, some "claim_validation", true, true, [])
      else (none, some "reward_claiming", true, true, [])
    else if dry_run then (none, some "dry_run_complete", true, true, [])
    else (none, some "no_rewards_to_claim", true, true, [])

/-- Models `AutomationOrchestrator.execute_checkin` including the `finally`
block: cleanup is invoked exactly once on every exit path, and a cleanup
failure only clears `cleanup_completed`. -/
def execute_checkin (ops : WorkflowOps) (dry_run : Bool) : CheckinOutcome :=
  let r := execute_checkin_body ops dry_run
  { raised := r.1, step_completed := r.2.1, success := r.2.2.1,
    workflow_completed := r.2.2.2.1,
    cleanup_completed := match ops.cleanup with | Except.ok _ => true | Except.error _ => false,
    cleanup_calls := 1, errors := r.2.2.2.2 }

/-! Execution history (`StateManager.get_execution_history`). -/

/-- One line of the JSONL history file: blank, invalid JSON (skipped with a
warning), or a parsed record with an optional `timestamp` key and the rest of
its payload. -/
inductive HistLine
  | blank
  | invalid
  | record (timestamp : Option String) (payload : String)
deriving DecidableEq

/-- A parsed history record: optional timestamp plus payload. -/
def HistRecord := Option String × String

/-- The line-parsing loop of `get_execution_history`: blank and invalid lines
are skipped, parsed records kept in file order. -/
def parseRecords : List HistLine → List HistRecord
  | [] => []
  | .blank :: rest => parseRecords rest
  | .invalid :: rest => parseRecords rest
  | .record t p :: rest => (t, p) :: parseRecords rest

/-- Sort key `x.get("timestamp", "")`. -/
def histKey (r : HistRecord) : String := r.1.getD ""

/-- Ordering of `history.sort(key=..., reverse=True)`: `a` may stay before
`b` iff its timestamp key is greater or equal. -/
def histDesc (a b : HistRecord) : Prop := strLe (histKey b) (histKey a) = true

instance : DecidableRel histDesc := fun a b => by
  unfold histDesc; infer_instance

/-- Models `StateManager.get_execution_history`: parse, sort most-recent
first, then `if limit: history = history[:limit]` — a `0` limit is falsy in
Python and therefore applies no truncation. -/
def get_execution_history (lines : List HistLine) (limit : Option Nat) :
    List HistRecord :=
  let history := parseRecords lines
  let history := List.insertionSort histDesc history
  match limit with
  | some l => if l ≠ 0 then history.take l else history
  | none => history

/-! Concrete exemplar inputs used to instantiate the theorems below. -/

/-- Decides whether a strategy run raised or found no elements. -/
def strategyFailedOrEmpty (p : StrategyOutcome) : Bool :=
  match p.2 with
  | Except.error _ => true
  | Except.ok r => r.found_elements.isEmpty

/-- Decides whether a strategy run raised. -/
def strategyRaised (p : StrategyOutcome) : Bool :=
  match p.2 with
  | Except.error _ => true
  | Except.ok _ => false

/-- Browser stub: nothing is found, every click returns `False`. -/
def demoClaimBrowser : ClaimBrowser :=
  { find_element := fun _ => Except.ok false
    click_element := fun _ _ => Except.ok false }

/-- An empty detection result. -/
def demoEmptyDetection : RewardStatesResult :=
  { claimable_rewards := [], claimed_rewards := [], unavailable_rewards := [],
    detection_confidence := 0.5 }

/-- Browser where clicking the reward succeeds, a confirmation dialog is then
detected on the first confirmation selector, but every confirmation click
returns `False`. -/
def dialogStuckBrowser : ClaimBrowser :=
  { find_element := fun s => Except.ok (s == ".confirm-btn")
    click_element := fun s _ => Except.ok (s == ".reward-btn") }

/-- A claimable reward entry. -/
def demoReward : RewardEntry :=
  { selector := ".reward-btn", state := "claimable", confidence := 0.9 }

/-- Workflow oracle whose navigation stage raises. -/
def demoFailNav : WorkflowOps :=
  { navigate := Except.error "net down", authenticate := true, claimable_count := 0,
    claim_success := false, validate := Except.ok (), cleanup := Except.ok () }

/-- Workflow oracle whose authentication stage returns `False`. -/
def demoAuthFail : WorkflowOps :=
  { navigate := Except.ok (), authenticate := false, claimable_count := 0,
    claim_success := false, validate := Except.ok (), cleanup := Except.ok () }

/-- Strategy outcomes in which every strategy's `detect_elements` raises. -/
def demoRaisingOutcomes : List StrategyOutcome :=
  [("s1", Except.error "boom"), ("s2", Except.error "crash")]

/-- A state analyzer stub for the generic interface analysis. -/
def demoStates : String → RewardStatesWithMethod := fun name =>
  { claimable_rewards := [], claimed_rewards := [], unavailable_rewards := [],
    total_found := 0, analysis_method := name }

/-- The analysis result of a run in which every strategy raised. -/
def demoAnalysis : AnalysisResult :=
  { selectors := [], reward_states := none, detection_confidence := 0.0,
    primary_strategy := none, fallback_strategies := [] }

/-- An exception of an unrelated class whose message mentions a timeout. -/
def demoTimeoutError : PyError :=
  { kind := .otherError, type_name := "ValueError",
    message := "Page load TIMEOUT exceeded" }

/-- Recovery environment in which every recovery effect itself fails. -/
def demoEnv : RecoveryEnv :=
  { sleepRaises := true, current_url := Except.error "browser closed",
    fallbackSelectorsFound := false, loginPageDetected := false,
    reanalysis := Except.error "gone" }

/-- A two-record history file with a blank and an invalid line. -/
def demoHistLines : List HistLine :=
  [HistLine.record (some "2024-01-01T00:00:00") "first", HistLine.blank,
   HistLine.record (some "2024-01-02T00:00:00") "second", HistLine.invalid]

/-! Helper lemmas. -/

/-- Totality of the lexicographic comparison. -/
theorem lexLe_total : ∀ (a b : List Char), lexLe a b = true ∨ lexLe b a = true := by
  intro a
  induction a with
  | nil => intro b; left; rfl
  | cons x xs ih =>
    intro b
    cases b with
    | nil => right; rfl
    | cons y ys =>
      simp only [lexLe]
      rcases Nat.lt_trichotomy x.toNat y.toNat with h | h | h
      · left; rw [if_pos h]
      · rcases ih ys with h2 | h2
        · left
          rw [if_neg (by omega), if_neg (by omega)]
          exact h2
        · right
          rw [if_neg (by omega), if_neg (by omega)]
          exact h2
      · right; rw [if_pos h]

/-- Transitivity of the lexicographic comparison. -/
theorem lexLe_trans : ∀ {a b c : List Char},
    lexLe a b = true → lexLe b c = true → lexLe a c = true := by
  intro a
  induction a with
  | nil => intro b c _ _; rfl
  | cons x xs ih =>
    intro b c h1 h2
    match b, c with
    | [], _ => simp [lexLe] at h1
    | _ :: _, [] => simp [lexLe] at h2
    | y :: ys, z :: zs =>
      simp only [lexLe] at h1 h2 ⊢
      by_cases hxy : x.toNat < y.toNat
      · by_cases hyz : y.toNat < z.toNat
        · rw [if_pos (by omega)]
        · by_cases hzy : z.toNat < y.toNat
          · rw [if_neg hyz, if_pos hzy] at h2; exact absurd h2 (by decide)
          · rw [if_pos (by omega)]
      · rw [if_neg hxy] at h1
        by_cases hyx : y.toNat < x.toNat
        · rw [if_pos hyx] at h1; exact absurd h1 (by decide)
        · rw [if_neg hyx] at h1
          by_cases hyz : y.toNat < z.toNat
          · rw [if_pos (by omega)]
          · by_cases hzy : z.toNat < y.toNat
            · rw [if_neg hyz, if_pos hzy] at h2; exact absurd h2 (by decide)
            · rw [if_neg hyz, if_neg hzy] at h2
              rw [if_neg (by omega), if_neg (by omega)]
              exact ih h1 h2

/-- Unfolding of the merge fold over one new item. -/
theorem mergeRewardList_cons (e : List RewardEntry) (i : RewardEntry)
    (n : List RewardEntry) :
    mergeRewardList e (i :: n) = mergeRewardList (if i ∈ e then e else e ++ [i]) n := by
  simp [mergeRewardList]

/-- The existing items survive the merge as a prefix. -/
theorem mergeRewardList_extends (n e : List RewardEntry) : e <+: mergeRewardList e n := by
  induction n generalizing e with
  | nil => exact List.prefix_refl e
  | cons i rest ih =>
    rw [mergeRewardList_cons]
    refine List.IsPrefix.trans ?_ (ih _)
    split
    · exact List.prefix_refl e
    · exact List.prefix_append e [i]

/-- Membership in a merged list. -/
theorem mergeRewardList_mem (n : List RewardEntry) (x : RewardEntry) :
    ∀ e, x ∈ mergeRewardList e n ↔ x ∈ e ∨ x ∈ n := by
  induction n with
  | nil => intro e; simp [mergeRewardList]
  | cons i rest ih =>
    intro e
    rw [mergeRewardList_cons]
    by_cases h : i ∈ e
    · rw [if_pos h, ih]
      simp only [List.mem_cons]
      constructor
      · rintro (hx | hx)
        · exact Or.inl hx
        · exact Or.inr (Or.inr hx)
      · rintro (hx | hx | hx)
        · exact Or.inl hx
        · exact Or.inl (hx ▸ h)
        · exact Or.inr hx
    · rw [if_neg h, ih]
      simp only [List.mem_append, List.mem_singleton, List.mem_cons]
      tauto

/-- The network-timeout handler recommends a retry in every branch. -/
theorem handle_network_timeout_retry (env : RecoveryEnv) :
    (handle_network_timeout env).retry_recommended = true := by
  unfold handle_network_timeout
  split
  · rfl
  · split <;> rfl

/-- If every outcome raised or found nothing, no strategy is collected. -/
theorem collectSuccessful_nil (outcomes : List StrategyOutcome)
    (h : ∀ p ∈ outcomes, strategyFailedOrEmpty p = true) :
    (collectSuccessful outcomes).1 = [] := by
  induction outcomes with
  | nil => rfl
  | cons p rest ih =>
    have hrest := ih (fun q hq => h q (List.mem_cons_of_mem _ hq))
    obtain ⟨name, res⟩ := p
    cases res with
    | error e => simpa [collectSuccessful] using hrest
    | ok r =>
      have hp := h (name, Except.ok r) (List.mem_cons_self _ _)
      have hfe : r.found_elements = [] := by
        simpa [strategyFailedOrEmpty, List.isEmpty_iff] using hp
      simpa [collectSuccessful, hfe] using hrest

/-! C10 — `human_delay` bounds. -/

/-- C10: for every base duration `b ≥ 0`, variance `v ∈ [0,1]` and jitter
draw `u ∈ [-1,1]`, the slept duration is at least `100` ms — even when
`b*(1-v) < 100` — and at most `max 100 (b*(1+v))` ms; in particular it is
never zero or negative. -/
theorem human_delay_min_max (base_ms variance u : ℚ)
    (hb : 0 ≤ base_ms) (hv0 : 0 ≤ variance) (_hv1 : variance ≤ 1)
    (_hu0 : -1 ≤ u) (hu1 : u ≤ 1) :
    100 ≤ human_delay_ms base_ms variance u ∧
      human_delay_ms base_ms variance u ≤ max 100 (base_ms * (1 + variance)) := by
  unfold human_delay_ms
  constructor
  · exact le_max_left _ _
  · refine max_le_max le_rfl ?_
    nlinarith [mul_nonneg (mul_nonneg hb hv0) (sub_nonneg.mpr hu1)]

/-- Witness for C10 at `base = 50`, `variance = 1`, jitter `u = -1`: the raw
draw `50 - 50 = 0` would be zero, yet the applied delay is floored at 100. -/
theorem human_delay_min_max_witness :
    100 ≤ human_delay_ms 50 1 (-1) ∧
      human_delay_ms 50 1 (-1) ≤ max 100 (50 * (1 + 1)) :=
  human_delay_min_max 50 1 (-1) (by norm_num) (by norm_num) (by norm_num)
    (by norm_num) (by norm_num)

/-! C5 — fallback merging is monotone. -/

/-- C5: merging a fallback result into a primary result never shortens any of
the three reward lists, preserves every entry of the primary result (as a
prefix), and a fallback entry ends up in the merged list exactly when it was
in either input — equal entries are not duplicated, so membership is the
union of the two memberships. -/
theorem merge_detection_results_monotone (primary fallback : RewardStatesResult) :
    (primary.claimable_rewards.length ≤
        (merge_detection_results primary fallback).claimable_rewards.length ∧
      primary.claimable_rewards <+:
        (merge_detection_results primary fallback).claimable_rewards ∧
      ∀ x, x ∈ (merge_detection_results primary fallback).claimable_rewards ↔
        x ∈ primary.claimable_rewards ∨ x ∈ fallback.claimable_rewards) ∧
    (primary.claimed_rewards.length ≤
        (merge_detection_results primary fallback).claimed_rewards.length ∧
      primary.claimed_rewards <+:
        (merge_detection_results primary fallback).claimed_rewards ∧
      ∀ x, x ∈ (merge_detection_results primary fallback).claimed_rewards ↔
        x ∈ primary.claimed_rewards ∨ x ∈ fallback.claimed_rewards) ∧
    (primary.unavailable_rewards.length ≤
        (merge_detection_results primary fallback).unavailable_rewards.length ∧
      primary.unavailable_rewards <+:
        (merge_detection_results primary fallback).unavailable_rewards ∧
      ∀ x, x ∈ (merge_detection_results primary fallback).unavailable_rewards ↔
        x ∈ primary.unavailable_rewards ∨ x ∈ fallback.unavailable_rewards) := by
  refine ⟨⟨?_, ?_, ?_⟩, ⟨?_, ?_, ?_⟩, ⟨?_, ?_, ?_⟩⟩ <;>
    first
      | exact (mergeRewardList_extends _ _).length_le
      | exact mergeRewardList_extends _ _
      | exact fun x => mergeRewardList_mem _ x _

/-! C1 — validation-confidence weighting. -/

/-- C1 counterexample: with only UI-feedback evidence of confidence `0.9` the
code returns `0.9 * 0.4 = 0.36`, not the claimed `0.9`: the single weighted
factor is averaged over the factor count, not over the availability weights. -/
theorem validation_confidence_ui_only_counterexample :
    calculate_validation_confidence [0.9] [] [] = 0.36 ∧ (0.36 : ℚ) ≠ 0.9 := by
  constructor
  · norm_num [calculate_validation_confidence, listAvg]
  · norm_num

/-- C1 amended: for every call — every combination of available and empty
evidence groups — `validation_confidence` is the plain average of the
available groups' weighted factors `group_average * weight` (weights
0.4/0.4/0.2): the sum of the factors of the non-empty groups divided by the
number of non-empty groups, and `0` when no group produced evidence. -/
theorem validation_confidence_counts_available_factors
    (ui st si : List ℚ) :
    calculate_validation_confidence ui st si =
      if ui = [] ∧ st = [] ∧ si = [] then 0
      else
        ((if ui ≠ [] then listAvg ui * 0.4 else 0) +
          (if st ≠ [] then listAvg st * 0.4 else 0) +
          (if si ≠ [] then listAvg si * 0.2 else 0)) /
        ((if ui ≠ [] then 1 else 0) + (if st ≠ [] then 1 else 0) +
          (if si ≠ [] then 1 else 0) : ℚ) := by
  by_cases h1 : ui = [] <;> by_cases h2 : st = [] <;> by_cases h3 : si = [] <;>
    simp [calculate_validation_confidence, h1, h2, h3] <;>
    (norm_num; try ring)

/-! C8 — empty claimable list. -/

/-- C8: called with a detection result whose claimable list is empty,
`claim_available_rewards` returns success with zero claims processed and
issues no `click_element` invocation. -/
theorem claim_available_rewards_empty (b : ClaimBrowser)
    (detection_result : RewardStatesResult)
    (h : detection_result.claimable_rewards = []) :
    claim_available_rewards b detection_result =
      ({ success := true, claims_processed := 0, successful_claims := [],
         failed_claims := [], total_attempts := 0, error_details := [] }, 0) := by
  simp [claim_available_rewards, h]

/-- Witness for C8 on an all-empty detection result and a stub browser. -/
theorem claim_available_rewards_empty_witness :
    claim_available_rewards demoClaimBrowser demoEmptyDetection =
      ({ success := true, claims_processed := 0, successful_claims := [],
         failed_claims := [], total_attempts := 0, error_details := [] }, 0) :=
  claim_available_rewards_empty demoClaimBrowser demoEmptyDetection rfl

/-! C7 — timeout errors always recommend a retry. -/

/-- C7: an error that is a network-timeout or timeout exception, or whose
message contains "timeout" in any letter case, is routed to the
network-timeout handler, and the returned handling result has
`retry_recommended = true` no matter how the browser-liveness re-test or the
recovery attempt itself behaves. -/
theorem timeout_errors_always_retry (env : RecoveryEnv) (e : PyError)
    (h : e.kind = .networkTimeoutError ∨ e.kind = .timeoutError ∨
      msgHasLower e.message "timeout" = true) :
    classify_error e = ErrorRoute.network ∧
      (handle_claiming_errors env e).1.retry_recommended = true := by
  have hc : classify_error e = ErrorRoute.network := by
    unfold classify_error
    rw [if_pos]
    rcases h with h | h | h
    · exact Or.inl (Or.inl h)
    · exact Or.inl (Or.inr h)
    · exact Or.inr h
  refine ⟨hc, ?_⟩
  simp only [handle_claiming_errors, hc]
  exact handle_network_timeout_retry env

/-- Witness for C7: a `ValueError` whose message merely mentions "TIMEOUT",
in an environment where even the recovery sleep raises. -/
theorem timeout_errors_always_retry_witness :
    classify_error demoTimeoutError = ErrorRoute.network ∧
      (handle_claiming_errors demoEnv demoTimeoutError).1.retry_recommended = true :=
  timeout_errors_always_retry demoEnv demoTimeoutError
    (Or.inr (Or.inr (by decide)))

/-! C2 — per-reward success and confirmation. -/

/-- C2 counterexample: with a browser where the reward click succeeds, a
confirmation dialog is detected, but the confirmation button click fails, the
confirmation handler reports `dialog_found = true, confirmed = false` and yet
the reward's `success` is `true` — the code computes
`clicked and (confirmed or True)`, so a detected-but-unconfirmed dialog does
not make the reward fail as the claim requires. -/
theorem claim_success_despite_unconfirmed_dialog :
    (handle_confirmation_dialog dialogStuckBrowser 1).1.dialog_found = true ∧
    (handle_confirmation_dialog dialogStuckBrowser 1).1.confirmed = false ∧
    (claim_single_reward dialogStuckBrowser demoReward 0).1.clicked = true ∧
    (claim_single_reward dialogStuckBrowser demoReward 0).1.success = true ∧
    (claim_single_reward dialogStuckBrowser demoReward 0).1.success ≠
      ((claim_single_reward dialogStuckBrowser demoReward 0).1.clicked &&
        ((claim_single_reward dialogStuckBrowser demoReward 0).1.confirmed ||
          !(handle_confirmation_dialog dialogStuckBrowser 1).1.dialog_found)) := by
  decide

/-- C2 amended: a reward's final `success` flag equals its `clicked` flag —
the disjunction `confirmed or True` in the source makes confirmation
non-blocking, so a detected dialog whose confirmation click never succeeds
still yields a successful reward. -/
theorem claim_single_reward_success_eq_clicked (b : ClaimBrowser)
    (reward : RewardEntry) (clicks : Nat) :
    (claim_single_reward b reward clicks).1.success =
      (claim_single_reward b reward clicks).1.clicked := by
  unfold claim_single_reward
  by_cases hsel : reward.selector = ""
  · simp [hsel]
  · simp only [if_neg hsel]
    cases herr : (clickRetryAux b reward.selector max_retries 0 clicks).2.2.1 with
    | some e => simp [herr]
    | none =>
      by_cases hck : (clickRetryAux b reward.selector max_retries 0 clicks).1
      · simp [herr, hck]
      · simp [herr, hck]

/-! C3 — `step_completed` bookkeeping. -/

/-- C3 counterexample: when the navigation stage raises, `step_completed` is
still its initial `None` — not `"navigation"` — because the workflow records
a stage marker only after the stage completes. -/
theorem navigation_failure_leaves_null_step :
    (execute_checkin demoFailNav false).step_completed = none ∧
    (execute_checkin demoFailNav false).raised =
      some "Check-in workflow failed at None: net down" ∧
    (execute_checkin demoFailNav false).step_completed ≠ some "navigation" := by
  decide

/-- C3 amended: `step_completed` is updated after each stage completes, so an
exception thrown inside a stage leaves the marker at the most recently
completed stage: a navigation failure leaves it `None`, authentication
returning false raises after the `"authentication"` marker is set, a
validation failure leaves `"reward_claiming"`, and cleanup is invoked exactly
once on every path. -/
theorem step_completed_set_after_each_stage (ops : WorkflowOps) (dry_run : Bool) :
    (∀ e, ops.navigate = Except.error e →
      (execute_checkin ops dry_run).step_completed = none ∧
      (execute_checkin ops dry_run).raised =
        some ("Check-in workflow failed at None: " ++ e)) ∧
    (ops.navigate = Except.ok () → ops.authenticate = false →
      (execute_checkin ops dry_run).step_completed = some "authentication" ∧
      (execute_checkin ops dry_run).raised =
        some "Check-in workflow failed at authentication: Authentication failed") ∧
    (∀ e, ops.navigate = Except.ok () → ops.authenticate = true → dry_run = false →
      0 < ops.claimable_count → ops.claim_success = true →
      ops.validate = Except.error e →
      (execute_checkin ops dry_run).step_completed = some "reward_claiming") ∧
    (execute_checkin ops dry_run).cleanup_calls = 1 := by
  refine ⟨?_, ?_, ?_, ?_⟩
  · intro e he
    simp [execute_checkin, execute_checkin_body, he, workflowFail, renderStep]
  · intro hn ha
    simp [execute_checkin, execute_checkin_body, hn, ha, workflowFail, renderStep]
  · intro e hn ha hd hc hcs hv
    simp [execute_checkin, execute_checkin_body, hn, ha, hd, hc, hcs, hv,
      workflowFail, renderStep]
  · rfl

/-- Witness for the amended C3: authentication returning false leaves
`step_completed = "authentication"` and an aggregate error naming it. -/
theorem step_completed_set_after_each_stage_witness :
    (execute_checkin demoAuthFail false).step_completed = some "authentication" ∧
    (execute_checkin demoAuthFail false).raised =
      some "Check-in workflow failed at authentication: Authentication failed" :=
  (step_completed_set_after_each_stage demoAuthFail false).2.1 rfl rfl

/-! C4 — `analyze_interface` never raises on strategy failures. -/

/-- C4 counterexample: a run in which every strategy's `detect` raises does
not fail with a `DetectionError` — the per-strategy exceptions are caught and
the analysis returns normally with `primary_strategy = None` and
`detection_confidence = 0.0`. -/
theorem analyze_interface_all_raise_counterexample :
    demoRaisingOutcomes.all strategyRaised = true ∧
    analyze_interface demoStates demoRaisingOutcomes = Except.ok demoAnalysis := by
  exact ⟨by decide, rfl⟩

/-- C4 amended: `analyze_interface` catches per-strategy exceptions without
aborting the remaining strategies and never raises because of them: it
returns normally on every input, and whenever every strategy raised or found
no element the result has `primary_strategy = None` and
`detection_confidence = 0.0` — a valid low-confidence result, not a
failure. -/
theorem analyze_interface_never_raises (a : String → RewardStatesWithMethod)
    (outcomes : List StrategyOutcome) :
    (analyze_interface a outcomes).isOk = true ∧
    ((∀ p ∈ outcomes, strategyFailedOrEmpty p = true) →
      ∀ r, analyze_interface a outcomes = Except.ok r →
        r.primary_strategy = none ∧ r.detection_confidence = 0) := by
  constructor
  · cases h : sortSuccessful (collectSuccessful outcomes).1 <;>
      simp [analyze_interface, h, Except.isOk, Except.toBool]
  · intro hfail r hr
    have hnil : (collectSuccessful outcomes).1 = [] := collectSuccessful_nil outcomes hfail
    rw [analyze_interface, hnil] at hr
    have hs : sortSuccessful [] = [] := rfl
    rw [hs] at hr
    cases hr
    constructor
    · rfl
    · norm_num

/-- Witness for the amended C4, instantiated at the all-raising outcome list. -/
theorem analyze_interface_never_raises_witness :
    demoAnalysis.primary_strategy = none ∧ demoAnalysis.detection_confidence = 0 :=
  (analyze_interface_never_raises demoStates demoRaisingOutcomes).2
    (by decide) demoAnalysis rfl

/-! C9 — execution-history query. -/

/-- C9 counterexample: with two parsed records and `limit = 0` the query
returns both records, not zero — `if limit:` is falsy for `0` in Python, so a
zero limit applies no truncation at all. -/
theorem history_limit_zero_returns_all :
    (get_execution_history demoHistLines (some 0)).length = 2 ∧
      (get_execution_history demoHistLines (some 0)).length ≠ 0 := by
  decide

/-- C9 amended: the query returns the parsed records sorted most-recent-first
(descending by the timestamp key) and a positive limit caps the number of
returned records; a limit of `0`, however, behaves like no limit and returns
all records.  Without a limit the result is a permutation of the parsed
records. -/
theorem execution_history_sorted_and_limited (lines : List HistLine)
    (limit : Option Nat) :
    List.Sorted histDesc (get_execution_history lines limit) ∧
    (∀ l, limit = some l → l ≠ 0 → (get_execution_history lines limit).length ≤ l) ∧
    get_execution_history lines (some 0) = get_execution_history lines none ∧
    (get_execution_history lines none).Perm (parseRecords lines) := by
  have hsorted : List.Sorted histDesc (List.insertionSort histDesc (parseRecords lines)) :=
    @List.sorted_insertionSort _ histDesc _ ⟨fun a b => lexLe_total _ _⟩
      ⟨fun _ _ _ h1 h2 => lexLe_trans h2 h1⟩ (parseRecords lines)
  refine ⟨?_, ?_, ?_, ?_⟩
  · match limit with
    | none => exact hsorted
    | some l =>
      by_cases h : l ≠ 0
      · simp only [get_execution_history, if_pos h]
        exact hsorted.sublist (List.take_sublist l _)
      · simp only [get_execution_history, if_neg h]
        exact hsorted
  · intro l hl hne
    subst hl
    simp only [get_execution_history, if_pos hne]
    exact List.length_take_le l _
  · simp [get_execution_history]
  · simpa [get_execution_history] using
      List.perm_insertionSort histDesc (parseRecords lines)

/-- Witness for the amended C9: at a positive limit the result is capped. -/
theorem execution_history_sorted_and_limited_witness :
    (get_execution_history demoHistLines (some 1)).length ≤ 1 :=
  (execution_history_sorted_and_limited demoHistLines (some 1)).2.1 1 rfl
    (by decide)

/-! C6 — detection confidence stays in the unit interval. -/

/-- The class-based strategy's aggregate confidence is `0.8` or `0.2`. -/
theorem hoyolab_detect_confidence_bounds (find : Find) :
    0 ≤ (hoyolab_class_based_detect find).confidence ∧
      (hoyolab_class_based_detect find).confidence ≤ 1 := by
  simp only [hoyolab_class_based_detect]
  split <;> norm_num

/-- Every registered strategy reports a confidence in `[0, 1]`. -/
theorem run_strategies_confidence_bounds (find : Find) :
    ∀ p ∈ run_strategies find, ∀ r, p.2 = Except.ok r →
      0 ≤ r.confidence ∧ r.confidence ≤ 1 := by
  intro p hp r hr
  simp only [run_strategies, List.mem_cons, List.not_mem_nil, or_false] at hp
  rcases hp with h | h | h | h <;> subst h <;>
    simp only [Except.ok.injEq] at hr <;> subst hr
  · exact hoyolab_detect_confidence_bounds find
  · norm_num [attribute_based_detect]
  · norm_num [text_content_detect]
  · norm_num [generic_fallback_detect]

/-- Every collected successful strategy inherits a bounded confidence. -/
theorem collectSuccessful_confidence_bounds (outcomes : List StrategyOutcome)
    (h : ∀ p ∈ outcomes, ∀ r, p.2 = Except.ok r → 0 ≤ r.confidence ∧ r.confidence ≤ 1) :
    ∀ s ∈ (collectSuccessful outcomes).1, 0 ≤ s.confidence ∧ s.confidence ≤ 1 := by
  induction outcomes with
  | nil => intro s hs; simp [collectSuccessful] at hs
  | cons p rest ih =>
    have hrest := ih (fun q hq r hr => h q (List.mem_cons_of_mem _ hq) r hr)
    intro s hs
    obtain ⟨name, res⟩ := p
    cases res with
    | error e =>
      exact hrest s (by simpa [collectSuccessful] using hs)
    | ok r =>
      by_cases hf : r.found_elements ≠ []
      · simp only [collectSuccessful, if_pos hf] at hs
        rcases List.mem_cons.mp hs with hs | hs
        · subst hs
          exact h (name, Except.ok r) (List.mem_cons_self _ _) r rfl
        · exact hrest s hs
      · simp only [collectSuccessful, if_neg hf] at hs
        exact hrest s hs

/-- Sorting does not add strategies. -/
theorem sortSuccessful_mem {s : SuccessfulStrategy} {l : List SuccessfulStrategy}
    (h : s ∈ sortSuccessful l) : s ∈ l :=
  (List.perm_insertionSort stratDescLe l).mem_iff.mp h

/-- The interface-analysis confidence is the chosen primary's confidence (or
`0.0`), hence bounded whenever every strategy's confidence is. -/
theorem analyze_interface_confidence_bounds (a : String → RewardStatesWithMethod)
    (outcomes : List StrategyOutcome)
    (h : ∀ p ∈ outcomes, ∀ r, p.2 = Except.ok r → 0 ≤ r.confidence ∧ r.confidence ≤ 1) :
    ∀ res, analyze_interface a outcomes = Except.ok res →
      0 ≤ res.detection_confidence ∧ res.detection_confidence ≤ 1 := by
  intro res hres
  rw [analyze_interface] at hres
  cases hsort : sortSuccessful (collectSuccessful outcomes).1 with
  | nil =>
    rw [hsort] at hres
    cases hres
    norm_num
  | cons top rest =>
    rw [hsort] at hres
    cases hres
    have htop : top ∈ (collectSuccessful outcomes).1 :=
      sortSuccessful_mem (by rw [hsort]; exact List.mem_cons_self _ _)
    exact collectSuccessful_confidence_bounds outcomes h top htop

/-- Merging never changes the confidence field. -/
theorem merge_detection_results_confidence (a b : RewardStatesResult) :
    (merge_detection_results a b).detection_confidence = a.detection_confidence := rfl

/-- Applying fallback classifiers never changes the confidence field. -/
theorem apply_fallback_detection_confidence (find : Find) (sr : RewardStatesResult)
    (fb : List String) :
    (apply_fallback_detection find sr fb).detection_confidence =
      sr.detection_confidence := by
  unfold apply_fallback_detection
  generalize fb.take 2 = l
  induction l generalizing sr with
  | nil => rfl
  | cons n rest ih =>
    rw [List.foldl_cons, ih]
    cases hl : lookupStrategyStates n find with
    | none => simp [hl]
    | some fs => simp [hl, merge_detection_results]

/-- The recomputed confidence score lies in `[0, 1]` when its base is
non-negative. -/
theorem calculate_confidence_score_bounds (sr : RewardStatesResult)
    (h : 0 ≤ sr.detection_confidence) :
    0 ≤ calculate_confidence_score sr ∧ calculate_confidence_score sr ≤ 1 := by
  simp only [calculate_confidence_score]
  refine ⟨le_min (by norm_num) ?_, le_trans (min_le_left _ _) (by norm_num)⟩
  split
  · have hmin : (0 : ℚ) ≤ min 0.3
        (((sr.claimable_rewards.length + sr.claimed_rewards.length +
          sr.unavailable_rewards.length : Nat) : ℚ) * 0.1) :=
      le_min (by norm_num) (by positivity)
    linarith
  · exact h

/-- The primary phase's confidence is the interface confidence or `0.0`. -/
theorem primary_state_result_confidence_nonneg (find : Find) (ia : AnalysisResult)
    (h : 0 ≤ ia.detection_confidence) :
    0 ≤ (primary_state_result find ia).detection_confidence := by
  cases hp : ia.primary_strategy with
  | none => norm_num [primary_state_result, hp, emptyStateResult]
  | some name =>
    cases hl : lookupStrategyStates name find with
    | none => norm_num [primary_state_result, hp, hl, emptyStateResult]
    | some ps => simpa [primary_state_result, hp, hl] using h

/-- The fallback phase preserves the primary phase's confidence. -/
theorem fallback_state_result_confidence (find : Find) (ia : AnalysisResult) :
    (fallback_state_result find ia).detection_confidence =
      (primary_state_result find ia).detection_confidence := by
  simp only [fallback_state_result]
  split
  · exact apply_fallback_detection_confidence find _ _
  · rfl

/-- The state-differentiation layer produces a confidence in `[0, 1]`
whenever the interface confidence is non-negative. -/
theorem detect_reward_states_confidence_bounds (find : Find) (ia : AnalysisResult)
    (h : 0 ≤ ia.detection_confidence) :
    0 ≤ (detect_reward_states_with_confidence find ia).detection_confidence ∧
      (detect_reward_states_with_confidence find ia).detection_confidence ≤ 1 := by
  have hbase : 0 ≤ (fallback_state_result find ia).detection_confidence := by
    rw [fallback_state_result_confidence]
    exact primary_state_result_confidence_nonneg find ia h
  exact calculate_confidence_score_bounds (fallback_state_result find ia) hbase

/-- C6: for every browser behavior, the detection result produced by
`detect_reward_availability` has a `detection_confidence` in `[0, 1]`; in
particular the reward-count bonus `min(1.0, base + min(0.3, total * 0.1))`
can push the value neither above `1.0` nor below `0.0`. -/
theorem detection_confidence_in_unit_interval (find : Find) :
    0 ≤ detectionConfidenceOf (detect_reward_availability find) ∧
      detectionConfidenceOf (detect_reward_availability find) ≤ 1 := by
  unfold detect_reward_availability
  cases hia : analyze_interface (analyze_reward_states_for find) (run_strategies find) with
  | error e => norm_num [detectionConfidenceOf]
  | ok ia =>
    have hb := analyze_interface_confidence_bounds (analyze_reward_states_for find)
      (run_strategies find) (run_strategies_confidence_bounds find) ia hia
    by_cases hlt : ia.detection_confidence < 0.3
    · simpa only [if_pos hlt, detectionConfidenceOf] using hb
    · simpa only [if_neg hlt, detectionConfidenceOf] using
        detect_reward_states_confidence_bounds find ia hb.1

end Checkin


